import Mathlib

/-!
Verification of the Endurance-Protocol physics-and-decision engine.

The definitions below are shallow embeddings of the TypeScript source:

* `calculateImpactMetrics`, `latLonToVector3`, `vector3ToLatLon` and the DART
  deflection model `calculateDartDeflection` from `src/lib/physics.ts`
  (the variant whose `calculateDartDeflection` takes diameter, density, lead
  time and interceptor parameters, as used by the impact modal);
* the analog matchers `closestImpact` / `closestEarthquake` extracted from the
  impact-modal component (the `dartStage` UI early-return is outside the
  engine and is omitted; the truthiness guard on the seismic magnitude is kept).

IEEE-754 double arithmetic is idealised as exact real arithmetic over `ℝ`:
`Math.PI` becomes `Real.pi`, `Math.pow` with fractional exponent becomes
`Real.rpow`, `Math.atan2 y x` becomes `Complex.arg ⟨x, y⟩` (same `(-π, π]`
range and conventions), `Math.asin` becomes `Real.arcsin`, `Math.floor`
becomes `Int.floor`, and `parseFloat(x.toFixed(n))` becomes rounding half
away from zero at `n` decimals via `Int.round` (ECMA toFixed picks the larger
candidate on ties, which agrees with `Int.round = ⌊x + 1/2⌋`).

The analog matcher only ever does field arithmetic on catalog values plus
`Math.floor (Math.log10 e)` of positive energies, so it is embedded
computably over `ℚ`, with the energy decade embedded as `Int.log 10`
(equal to `⌊log10 e⌋` for positive `e`) and the stable ascending
`Array.prototype.sort` by score embedded as `List.insertionSort` on the
score component (insertion sort is exactly the stable ascending sort).
JS division by zero (mass zero, for instance) yields `Infinity` while the
field convention here yields `0`; no theorem below relies on that point.
-/

namespace Endurance

section RealModel

open scoped Classical

/-- JS `Math.atan2 y x`: the angle of the point `(x, y)` in `(-π, π]`. -/
noncomputable def atan2 (y x : ℝ) : ℝ := Complex.arg ⟨x, y⟩

/-- JS `parseFloat(x.toFixed(2))`: round half away from zero to 2 decimals. -/
noncomputable def round2 (x : ℝ) : ℝ := (round (x * 100) : ℝ) / 100

/-- JS `parseFloat(x.toFixed(1))`: round half away from zero to 1 decimal. -/
noncomputable def round1 (x : ℝ) : ℝ := (round (x * 10) : ℝ) / 10

/-- JS `Math.log10`. -/
noncomputable def log10 (x : ℝ) : ℝ := Real.logb 10 x

/-- physics.ts `energyToRichterMagnitude`: `(2/3) * log10 E - 2.9`. -/
noncomputable def energyToRichterMagnitude (energyJ : ℝ) : ℝ :=
  (2 / 3) * log10 energyJ - 2.9

/-- physics.ts step 1 (shared with the deflection model): sphere volume from
diameter, times density: `(4/3) * Math.PI * Math.pow(d/2, 3) * density`. -/
noncomputable def asteroidMassKg (diameterMeters densityKgM3 : ℝ) : ℝ :=
  (4 / 3) * Real.pi * (diameterMeters / 2) ^ 3 * densityKgM3

/-- physics.ts step 2: `0.5 * mass * velocityMS * velocityMS`
with `velocityMS = velocityKmS * 1000`.  Returned unrounded. -/
noncomputable def kineticEnergyJraw (diameterMeters velocityKmS densityKgM3 : ℝ) : ℝ :=
  0.5 * asteroidMassKg diameterMeters densityKgM3 * (velocityKmS * 1000) * (velocityKmS * 1000)

/-- physics.ts step 4: `1.8 * Math.pow(d/1000, 0.78) * Math.pow(density/3000, 0.33)`. -/
noncomputable def craterKmRaw (diameterMeters densityKgM3 : ℝ) : ℝ :=
  1.8 * (diameterMeters / 1000) ^ (0.78 : ℝ) * (densityKgM3 / 3000) ^ (0.33 : ℝ)

/-- physics.ts step 5: `craterDiameterKm * 1.5`. -/
noncomputable def destructionRadiusKmRaw (diameterMeters densityKgM3 : ℝ) : ℝ :=
  craterKmRaw diameterMeters densityKgM3 * 1.5

/-- Result shape of `calculateImpactMetrics`. -/
structure ImpactMetrics where
  kineticEnergyJ : ℝ
  tntMegatons : ℝ
  craterDiameterKm : ℝ
  destructionRadiusKm : ℝ
  approxCasualties : Option ℤ
  seismicEquivalentMagnitude : ℝ

/-- physics.ts `calculateImpactMetrics`.  The optional `targetPopulation`
parameter is an `Option`; the JS code guards casualties with the truthiness
test `if (targetPopulation)`, so a supplied `0` falls through to `null`,
which the `pop = 0` test below reproduces.  The function performs no input
validation whatsoever: every real input produces a metrics record. -/
noncomputable def calculateImpactMetrics (diameterMeters velocityKmS densityKgM3 : ℝ)
    (targetPopulation : Option ℝ) : ImpactMetrics :=
  { kineticEnergyJ := kineticEnergyJraw diameterMeters velocityKmS densityKgM3
    tntMegatons := round2 (kineticEnergyJraw diameterMeters velocityKmS densityKgM3 / 4.184e15)
    craterDiameterKm := round2 (craterKmRaw diameterMeters densityKgM3)
    destructionRadiusKm := round2 (destructionRadiusKmRaw diameterMeters densityKgM3)
    approxCasualties :=
      match targetPopulation with
      | none => none
      | some pop =>
        if pop = 0 then none
        else
          some ⌊pop * (Real.pi * destructionRadiusKmRaw diameterMeters densityKgM3 ^ 2) /
                100 * 0.5⌋
    seismicEquivalentMagnitude :=
      round1 (energyToRichterMagnitude
        (kineticEnergyJraw diameterMeters velocityKmS densityKgM3)) }

/-- Result shape of `calculateDartDeflection` (part of the deflection model). -/
structure DeflectionOutcome where
  success : Bool
  velocityChangeMS : ℝ
  deflectionDistanceKm : ℝ
  missDistanceKm : ℝ
  confidence : ℕ
  reason : String

/-- Deflection model step 2 and 3:
`Δv = momentumEnhancement * (dartMass * dartVelocity * 1000) / asteroidMass`. -/
noncomputable def dartVelocityChangeMS
    (diameterM densityKgM3 dartMassKg dartVelocityKmS momentumEnhancement : ℝ) : ℝ :=
  momentumEnhancement * (dartMassKg * dartVelocityKmS * 1000) /
    asteroidMassKg diameterM densityKgM3

/-- Deflection model step 3 and 4: deflection distance in km accrued over the
lead time, `Δv * leadTimeYears * 365.25 * 24 * 3600 / 1000`. -/
noncomputable def dartDeflectionKm
    (diameterM densityKgM3 leadTimeYears dartMassKg dartVelocityKmS momentumEnhancement : ℝ) : ℝ :=
  dartVelocityChangeMS diameterM densityKgM3 dartMassKg dartVelocityKmS momentumEnhancement *
      (leadTimeYears * 365.25 * 24 * 3600) / 1000

/-- Deflection model: `earthRadiusKm + 10000` safety margin. -/
noncomputable def minimumMissKm : ℝ := 6371 + 10000

/-- The tiered DART deflection outcome, `calculateDartDeflection` in the
source.  The asteroid velocity parameter is part of the signature but is
never read by the body, exactly as in the source.  `missDistanceKm` is the
deflection distance in every tier. -/
noncomputable def calculateDartDeflection
    (asteroidVelocityKmS asteroidDiameterM asteroidDensityKgM3 leadTimeYears
      dartMassKg dartVelocityKmS momentumEnhancement : ℝ) : DeflectionOutcome :=
  let velocityChangeMS :=
    dartVelocityChangeMS asteroidDiameterM asteroidDensityKgM3 dartMassKg dartVelocityKmS
      momentumEnhancement
  let missDistanceKm :=
    dartDeflectionKm asteroidDiameterM asteroidDensityKgM3 leadTimeYears dartMassKg
      dartVelocityKmS momentumEnhancement
  if asteroidDiameterM > 1000 then
    { success := false
      velocityChangeMS := velocityChangeMS
      deflectionDistanceKm := missDistanceKm
      missDistanceKm := missDistanceKm
      confidence := 5
      reason := "Asteroid too large for single DART mission. Would require multiple kinetic impactors or nuclear deflection." }
  else if asteroidDiameterM > 500 then
    if leadTimeYears ≥ 10 ∧ missDistanceKm > minimumMissKm then
      { success := true
        velocityChangeMS := velocityChangeMS
        deflectionDistanceKm := missDistanceKm
        missDistanceKm := missDistanceKm
        confidence := 60
        reason := "Successful deflection with significant lead time. Large asteroid requires early intervention." }
    else
      { success := false
        velocityChangeMS := velocityChangeMS
        deflectionDistanceKm := missDistanceKm
        missDistanceKm := missDistanceKm
        confidence := 30
        reason := "Insufficient deflection. Larger asteroid needs more warning time or multiple missions." }
  else if asteroidDiameterM > 100 then
    if missDistanceKm > minimumMissKm then
      { success := true
        velocityChangeMS := velocityChangeMS
        deflectionDistanceKm := missDistanceKm
        missDistanceKm := missDistanceKm
        confidence := 85
        reason := "Successful deflection achieved. Medium-sized asteroid responds well to kinetic impact." }
    else if leadTimeYears < 2 then
      { success := false
        velocityChangeMS := velocityChangeMS
        deflectionDistanceKm := missDistanceKm
        missDistanceKm := missDistanceKm
        confidence := 40
        reason := "Insufficient warning time. Deflection too small to avoid Earth collision." }
    else
      { success := true
        velocityChangeMS := velocityChangeMS
        deflectionDistanceKm := missDistanceKm
        missDistanceKm := missDistanceKm
        confidence := 70
        reason := "Marginal success. Asteroid trajectory altered enough to reduce impact severity." }
  else
    if missDistanceKm > minimumMissKm * 2 then
      { success := true
        velocityChangeMS := velocityChangeMS
        deflectionDistanceKm := missDistanceKm
        missDistanceKm := missDistanceKm
        confidence := 95
        reason := "Highly successful deflection. Small asteroid easily diverted with significant margin." }
    else
      { success := true
        velocityChangeMS := velocityChangeMS
        deflectionDistanceKm := missDistanceKm
        missDistanceKm := missDistanceKm
        confidence := 80
        reason := "Successful deflection. Small asteroid trajectory sufficiently altered." }

/-- physics.ts `latLonToVector3`: spherical-to-Cartesian with
`phi = (90 - lat) * π/180` and `theta = (lon - 270) * π/180`
(the 270 degrees texture-alignment offset). -/
noncomputable def latLonToVector3 (lat lon radius : ℝ) : ℝ × ℝ × ℝ :=
  let phi := (90 - lat) * (Real.pi / 180)
  let theta := (lon - 270) * (Real.pi / 180)
  (radius * Real.sin phi * Real.sin theta,
   radius * Real.cos phi,
   radius * Real.sin phi * Real.cos theta)

/-- physics.ts `vector3ToLatLon`:
`lat = asin(max(-1, min(1, y/radius))) * 180/π` and `lon = atan2(x, z) * 180/π`.
Note: no 270 degrees offset is applied on the way back. -/
noncomputable def vector3ToLatLon (x y z radius : ℝ) : ℝ × ℝ :=
  (Real.arcsin (max (-1) (min 1 (y / radius))) * (180 / Real.pi),
   atan2 x z * (180 / Real.pi))

end RealModel

section AnalogMatcher

/-- One record of `historical-impacts.json`, with the fields the matcher reads. -/
structure ImpactRecord where
  name : String
  energy_mt : ℚ
  crater_km : ℚ
deriving DecidableEq

/-- One record of `major-earthquakes-expanded.json`, with the fields the matcher reads. -/
structure EarthquakeRecord where
  name : String
  magnitude : ℚ
  energy_mt : ℚ
  casualties : ℚ
deriving DecidableEq

/-- Impact score: `min(|e - target|/max(target,1), 1) * 0.7 + min(|c - target|/max(target,1), 1) * 0.3`. -/
def impactScore (targetEnergy targetCrater : ℚ) (i : ImpactRecord) : ℚ :=
  min (|i.energy_mt - targetEnergy| / max targetEnergy 1) 1 * (7/10) +
    min (|i.crater_km - targetCrater| / max targetCrater 1) 1 * (3/10)

/-- Earthquake score: `min(|m - target|/2, 1) * 0.6 + min(|e - target|/max(target,1), 1) * 0.4`. -/
def earthquakeScore (targetMagnitude targetEnergy : ℚ) (q : EarthquakeRecord) : ℚ :=
  min (|q.magnitude - targetMagnitude| / 2) 1 * (6/10) +
    min (|q.energy_mt - targetEnergy| / max targetEnergy 1) 1 * (4/10)

/-- Comparison used by `.sort((a, b) => a.score - b.score)` on score-tagged records. -/
def scoreLE {α : Type} (a b : α × ℚ) : Prop := a.2 ≤ b.2

instance {α : Type} : DecidableRel (@scoreLE α) :=
  fun a b => inferInstanceAs (Decidable (a.2 ≤ b.2))

instance {α : Type} : IsTotal (α × ℚ) scoreLE := ⟨fun a b => le_total a.2 b.2⟩

instance {α : Type} : IsTrans (α × ℚ) scoreLE := ⟨fun _ _ _ h1 h2 => le_trans h1 h2⟩

/-- Pre-filter of the earthquake matcher: `eq.casualties > 100 || eq.magnitude >= 7.5`. -/
def qualifiesB (q : EarthquakeRecord) : Bool :=
  decide (100 < q.casualties) || decide ((7.5 : ℚ) ≤ q.magnitude)

/-- The impact analog matcher.  On an empty catalog the JS code evaluates
`sorted[0].energy_mt` with `sorted[0] === undefined` and throws a TypeError,
which the `[]` branch models as `Except.error`.  The variety loop
`for (i = 1; i < Math.min(5, sorted.length); i++)` scans the 4 entries after
the top match and returns the first candidate in a different energy decade
with score below 0.5. -/
def closestImpact (targetEnergy targetCrater : ℚ) (catalog : List ImpactRecord) :
    Except String ImpactRecord :=
  let sorted :=
    List.insertionSort scoreLE (catalog.map fun i => (i, impactScore targetEnergy targetCrater i))
  match sorted with
  | [] => Except.error "TypeError: Cannot read properties of undefined"
  | top :: rest =>
    if 0 < rest.length ∧ top.2 < 1/10 then Except.ok top.1
    else
      match (rest.take 4).find? (fun c =>
          decide (1 ≤ |Int.log 10 top.1.energy_mt - Int.log 10 c.1.energy_mt| ∧ c.2 < 1/2)) with
      | some c => Except.ok c.1
      | none => Except.ok top.1

/-- Second pass of the earthquake matcher on the non-empty filtered list:
fast path below 0.15, then a scan of the 7 entries after the top match for a
magnitude-diverse candidate with score below 0.4. -/
def earthquakeVarietyPick (top : EarthquakeRecord × ℚ) (rest : List (EarthquakeRecord × ℚ)) :
    EarthquakeRecord :=
  if top.2 < 15/100 then top.1
  else
    match (rest.take 7).find? (fun c =>
        decide ((1/2 : ℚ) ≤ |c.1.magnitude - top.1.magnitude| ∧ c.2 < 4/10)) with
    | some c => c.1
    | none => top.1

/-- The earthquake analog matcher as written: score and sort the whole
catalog, then filter the sorted list to impactful records, then pick; if no
record qualifies fall back to `sorted[0]` (undefined, hence `none`, on an
empty catalog).  The leading guard models the JS truthiness test
`!metrics.seismicEquivalentMagnitude`. -/
def closestEarthquake (targetMagnitude targetEnergy : ℚ) (catalog : List EarthquakeRecord) :
    Option EarthquakeRecord :=
  if targetMagnitude = 0 then none
  else
    let sorted :=
      List.insertionSort scoreLE
        (catalog.map fun q => (q, earthquakeScore targetMagnitude targetEnergy q))
    match sorted.filter (fun p => qualifiesB p.1) with
    | [] => sorted.head?.map Prod.fst
    | top :: rest => some (earthquakeVarietyPick top rest)

/-- The earthquake matcher as the spec describes it: first restrict the
catalog to qualifying records, then score, sort and apply the variety rule
within that subset; when no record qualifies return the head of the
unfiltered sorted list. -/
def closestEarthquakeSpec (targetMagnitude targetEnergy : ℚ) (catalog : List EarthquakeRecord) :
    Option EarthquakeRecord :=
  if targetMagnitude = 0 then none
  else
    match List.insertionSort scoreLE
        ((catalog.filter qualifiesB).map
          fun q => (q, earthquakeScore targetMagnitude targetEnergy q)) with
    | [] =>
      (List.insertionSort scoreLE
          (catalog.map fun q => (q, earthquakeScore targetMagnitude targetEnergy q))).head?.map
        Prod.fst
    | top :: rest => some (earthquakeVarietyPick top rest)

end AnalogMatcher

end Endurance

namespace Endurance

section ClaimTheorems

open scoped Classical

/-- The miss-distance field of a deflection outcome is the deflection
distance, whichever tier is taken. -/
theorem dart_missDistance (v d ρ lt m dv β : ℝ) :
    (calculateDartDeflection v d ρ lt m dv β).missDistanceKm =
      dartDeflectionKm d ρ lt m dv β := by
  simp only [calculateDartDeflection]
  split_ifs <;> rfl

/-- C10 (confirmed): `calculateImpactMetrics` with `targetPopulation = 0`
takes the JS falsy branch, so `approxCasualties` is `null` and the full
output record equals the one produced with no population supplied. -/
theorem C10_zero_population_truthiness (d v ρ : ℝ) :
    (calculateImpactMetrics d v ρ (some 0)).approxCasualties = none ∧
    calculateImpactMetrics d v ρ (some 0) = calculateImpactMetrics d v ρ none := by
  constructor
  · simp [calculateImpactMetrics]
  · simp [calculateImpactMetrics]

/-- C3 counterexample: non-positive inputs are not rejected.  At diameter 0
the metrics function silently returns kinetic energy 0, and the deflection
model accepts a negative lead time and still reports success for a small
asteroid. -/
theorem C3_counterexample :
    (calculateImpactMetrics 0 20 3000 none).kineticEnergyJ = 0 ∧
    (calculateDartDeflection 20 50 3000 (-1) 570 6.6 3.6).success = true := by
  constructor
  · show kineticEnergyJraw 0 20 3000 = 0
    unfold kineticEnergyJraw asteroidMassKg
    norm_num
  · simp only [calculateDartDeflection]
    rw [if_neg (by norm_num : ¬((50 : ℝ) > 1000)), if_neg (by norm_num : ¬((50 : ℝ) > 500)),
      if_neg (by norm_num : ¬((50 : ℝ) > 100)), apply_ite DeflectionOutcome.success]
    simp

/-- C3 (amended): neither function performs input validation.  Zero diameter
silently yields a metrics record with zero kinetic energy for every velocity,
density and population, and the deflection model is total in all parameters,
even reporting success at a 50 m diameter whatever the (possibly negative)
lead time or density. -/
theorem C3_no_input_validation (v ρ lt m dv β : ℝ) (pop : Option ℝ) :
    (calculateImpactMetrics 0 v ρ pop).kineticEnergyJ = 0 ∧
    (calculateDartDeflection v 50 ρ lt m dv β).success = true := by
  constructor
  · show kineticEnergyJraw 0 v ρ = 0
    unfold kineticEnergyJraw asteroidMassKg
    ring_nf
  · simp only [calculateDartDeflection]
    rw [if_neg (by norm_num : ¬((50 : ℝ) > 1000)), if_neg (by norm_num : ¬((50 : ℝ) > 500)),
      if_neg (by norm_num : ¬((50 : ℝ) > 100)), apply_ite DeflectionOutcome.success]
    simp

/-- C4 (confirmed): diameter 1001 m always fails with confidence 5, for any
velocity, density, lead time and interceptor parameters; diameter 50 m with
lead time 5 years and default interceptor parameters always succeeds, with
confidence 95 exactly when the miss distance clears twice the safety margin
and confidence 80 otherwise. -/
theorem C4_tier_boundaries :
    (∀ v ρ lt m dv β : ℝ,
      (calculateDartDeflection v 1001 ρ lt m dv β).success = false ∧
      (calculateDartDeflection v 1001 ρ lt m dv β).confidence = 5) ∧
    (∀ v ρ : ℝ,
      (calculateDartDeflection v 50 ρ 5 570 6.6 3.6).success = true ∧
      (calculateDartDeflection v 50 ρ 5 570 6.6 3.6).confidence =
        if (calculateDartDeflection v 50 ρ 5 570 6.6 3.6).missDistanceKm >
            minimumMissKm * 2 then 95 else 80) := by
  constructor
  · intro v ρ lt m dv β
    simp only [calculateDartDeflection]
    rw [if_pos (by norm_num : (1001 : ℝ) > 1000)]
    exact ⟨rfl, rfl⟩
  · intro v ρ
    rw [dart_missDistance]
    simp only [calculateDartDeflection]
    rw [if_neg (by norm_num : ¬((50 : ℝ) > 1000)), if_neg (by norm_num : ¬((50 : ℝ) > 500)),
      if_neg (by norm_num : ¬((50 : ℝ) > 100))]
    constructor
    · rw [apply_ite DeflectionOutcome.success]
      simp
    · rw [apply_ite DeflectionOutcome.confidence]

/-- C9 counterexample: on an empty catalog the impact matcher does not
report a null result: it dereferences `sorted[0]` (undefined) and throws. -/
theorem C9_counterexample :
    closestImpact 10 1 [] = Except.error "TypeError: Cannot read properties of undefined" := by
  rfl

/-- C9 (amended): on an empty catalog the earthquake matcher returns an
absent result without throwing, while the impact matcher throws a TypeError
while computing the top match energy decade. -/
theorem C9_empty_catalog :
    (∀ tm te : ℚ, closestEarthquake tm te [] = none) ∧
    (∀ te tc : ℚ, closestImpact te tc [] =
      Except.error "TypeError: Cannot read properties of undefined") := by
  constructor
  · intro tm te
    by_cases h : tm = 0 <;> simp [closestEarthquake, h]
  · intro te tc
    rfl


/-- Rounding to two decimals moves a value by at most 1/200. -/
theorem abs_round2_sub_le (x : ℝ) : |round2 x - x| ≤ 1 / 200 := by
  unfold round2
  have h : (round (x * 100) : ℝ) / 100 - x = ((round (x * 100) : ℝ) - x * 100) / 100 := by
    ring
  rw [h, abs_div, abs_of_pos (by norm_num : (0 : ℝ) < 100)]
  have h2 : |(round (x * 100) : ℝ) - x * 100| ≤ 1 / 2 := by
    rw [abs_sub_comm]
    exact abs_sub_round (x * 100)
  linarith

/-- Rounding to two decimals is monotone. -/
theorem round2_mono {x y : ℝ} (h : x ≤ y) : round2 x ≤ round2 y := by
  unfold round2
  have hr : round (x * 100) ≤ round (y * 100) := by
    rw [round_eq, round_eq]
    exact Int.floor_le_floor (by linarith)
  gcongr

/-- Evaluation rule for two-decimal rounding. -/
theorem round2_eq_int (x : ℝ) (n : ℤ) (h1 : (n : ℝ) ≤ x * 100 + 1 / 2)
    (h2 : x * 100 + 1 / 2 < n + 1) : round2 x = (n : ℝ) / 100 := by
  unfold round2
  rw [round_eq]
  have hfl : ⌊x * 100 + 1 / 2⌋ = n := Int.floor_eq_iff.mpr ⟨h1, by push_cast; linarith⟩
  rw [hfl]

/-- The kinetic energy of the scale example is exactly π times 10^20 joules. -/
theorem kineticEnergy_scale_example : kineticEnergyJraw 1000 20 3000 = Real.pi * 1e20 := by
  unfold kineticEnergyJraw asteroidMassKg
  ring

/-- The raw crater diameter of the scale example is exactly 1.8 km. -/
theorem craterKmRaw_scale_example : craterKmRaw 1000 3000 = 1.8 := by
  unfold craterKmRaw
  norm_num [Real.one_rpow]

/-- Two-decimal rounding fixes 1.8. -/
theorem round2_of_one_point_eight : round2 1.8 = 1.8 := by
  rw [round2_eq_int 1.8 180 (by norm_num) (by norm_num)]
  norm_num

/-- The TNT-megaton field of the scale example lies strictly between 75085
and 75086. -/
theorem tnt_scale_example_bounds :
    75085 < (calculateImpactMetrics 1000 20 3000 none).tntMegatons ∧
    (calculateImpactMetrics 1000 20 3000 none).tntMegatons < 75086 := by
  have htnt : (calculateImpactMetrics 1000 20 3000 none).tntMegatons =
      round2 (Real.pi * 1e20 / 4.184e15) := by
    show round2 (kineticEnergyJraw 1000 20 3000 / 4.184e15) = _
    rw [kineticEnergy_scale_example]
  have hlo : (75085.5 : ℝ) < Real.pi * 1e20 / 4.184e15 := by
    rw [lt_div_iff (by norm_num : (0 : ℝ) < 4.184e15)]
    linarith [Real.pi_gt_d6]
  have hhi : Real.pi * 1e20 / 4.184e15 < 75085.9 := by
    rw [div_lt_iff (by norm_num : (0 : ℝ) < 4.184e15)]
    linarith [Real.pi_lt_d6]
  have hb := abs_round2_sub_le (Real.pi * 1e20 / 4.184e15)
  rw [abs_le] at hb
  constructor
  · rw [htnt]; linarith [hb.1]
  · rw [htnt]; linarith [hb.2]

/-- C5 counterexample: at the scale example the kinetic energy and TNT
figures are more than one hundred times the values the claim states
(3.14e17 J and 75.1 MT), so the claimed figures are wrong by a factor of
one thousand. -/
theorem C5_counterexample :
    (3.14e17 : ℝ) * 100 < (calculateImpactMetrics 1000 20 3000 none).kineticEnergyJ ∧
    (75.1 : ℝ) * 100 < (calculateImpactMetrics 1000 20 3000 none).tntMegatons := by
  constructor
  · show (3.14e17 : ℝ) * 100 < kineticEnergyJraw 1000 20 3000
    rw [kineticEnergy_scale_example]
    nlinarith [Real.pi_gt_three]
  · linarith [tnt_scale_example_bounds.1]

/-- C5 (amended): the scale example yields kinetic energy exactly π times
10^20 joules (about 3.14e20 J), a TNT-megaton field of about 75085.86 (in
particular strictly between 75085 and 75086) after two-decimal rounding, and
a crater-diameter field of exactly 1.8 km. -/
theorem C5_scale_example :
    (calculateImpactMetrics 1000 20 3000 none).kineticEnergyJ = Real.pi * 1e20 ∧
    (calculateImpactMetrics 1000 20 3000 none).craterDiameterKm = 1.8 ∧
    75085 < (calculateImpactMetrics 1000 20 3000 none).tntMegatons ∧
    (calculateImpactMetrics 1000 20 3000 none).tntMegatons < 75086 := by
  refine ⟨kineticEnergy_scale_example, ?_, tnt_scale_example_bounds.1, tnt_scale_example_bounds.2⟩
  show round2 (craterKmRaw 1000 3000) = 1.8
  rw [craterKmRaw_scale_example, round2_of_one_point_eight]

/-- C6 (amended): for fixed positive velocity and density the kinetic-energy
field is strictly increasing in diameter and the rounded crater-diameter
field is nondecreasing in diameter (the unrounded crater value increases
strictly, but two-decimal rounding can merge nearby diameters); for fixed
positive diameter and density the kinetic-energy field is strictly
increasing in velocity. -/
theorem C6_monotonicity (v ρ d1 d2 w1 w2 d : ℝ) (hv : 0 < v) (hρ : 0 < ρ)
    (h1 : 0 < d1) (h12 : d1 < d2) (hd : 0 < d) (hw1 : 0 < w1) (hw12 : w1 < w2) :
    (calculateImpactMetrics d1 v ρ none).kineticEnergyJ <
      (calculateImpactMetrics d2 v ρ none).kineticEnergyJ ∧
    (calculateImpactMetrics d1 v ρ none).craterDiameterKm ≤
      (calculateImpactMetrics d2 v ρ none).craterDiameterKm ∧
    (calculateImpactMetrics d w1 ρ none).kineticEnergyJ <
      (calculateImpactMetrics d w2 ρ none).kineticEnergyJ := by
  refine ⟨?_, ?_, ?_⟩
  · show kineticEnergyJraw d1 v ρ < kineticEnergyJraw d2 v ρ
    have e : ∀ x : ℝ, kineticEnergyJraw x v ρ = Real.pi * ρ * (v * 1000) ^ 2 / 12 * x ^ 3 := by
      intro x
      unfold kineticEnergyJraw asteroidMassKg
      ring
    rw [e d1, e d2]
    have h3 : d1 ^ 3 < d2 ^ 3 := pow_lt_pow_left h12 h1.le (by norm_num)
    have hc : 0 < Real.pi * ρ * (v * 1000) ^ 2 / 12 := by positivity
    exact mul_lt_mul_of_pos_left h3 hc
  · show round2 (craterKmRaw d1 ρ) ≤ round2 (craterKmRaw d2 ρ)
    apply round2_mono
    unfold craterKmRaw
    have hr : (d1 / 1000 : ℝ) ^ (0.78 : ℝ) ≤ (d2 / 1000) ^ (0.78 : ℝ) :=
      Real.rpow_le_rpow (by positivity) (by linarith) (by norm_num)
    have hρ' : (0 : ℝ) ≤ (ρ / 3000) ^ (0.33 : ℝ) := Real.rpow_nonneg (by positivity) _
    exact mul_le_mul_of_nonneg_right (by linarith) hρ'
  · show kineticEnergyJraw d w1 ρ < kineticEnergyJraw d w2 ρ
    have e2 : ∀ w : ℝ, kineticEnergyJraw d w ρ = Real.pi * ρ * d ^ 3 * 1000000 / 12 * w ^ 2 := by
      intro w
      unfold kineticEnergyJraw asteroidMassKg
      ring
    rw [e2 w1, e2 w2]
    have h2 : w1 ^ 2 < w2 ^ 2 := pow_lt_pow_left hw12 hw1.le (by norm_num)
    exact mul_lt_mul_of_pos_left h2 (by positivity)

/-- C6 witness at velocity 20, density 3000, diameters 1 < 2, velocities
10 < 20 at diameter 500. -/
theorem C6_monotonicity_witness :
    (0 : ℝ) < 20 ∧ (0 : ℝ) < 3000 ∧ (0 : ℝ) < 1 ∧ (1 : ℝ) < 2 ∧ (0 : ℝ) < 500 ∧
    (0 : ℝ) < 10 ∧ (10 : ℝ) < 20 ∧
    ((calculateImpactMetrics 1 20 3000 none).kineticEnergyJ <
        (calculateImpactMetrics 2 20 3000 none).kineticEnergyJ ∧
      (calculateImpactMetrics 1 20 3000 none).craterDiameterKm ≤
        (calculateImpactMetrics 2 20 3000 none).craterDiameterKm ∧
      (calculateImpactMetrics 500 10 3000 none).kineticEnergyJ <
        (calculateImpactMetrics 500 20 3000 none).kineticEnergyJ) := by
  refine ⟨by norm_num, by norm_num, by norm_num, by norm_num, by norm_num, by norm_num,
    by norm_num, ?_⟩
  exact C6_monotonicity 20 3000 1 2 10 20 500 (by norm_num) (by norm_num) (by norm_num)
    (by norm_num) (by norm_num) (by norm_num) (by norm_num)

/-- C6 counterexample: the crater-diameter field is the rounded value, so it
is not strictly increasing: diameters 1000 and 1000.001 both give exactly
1.8 km. -/
theorem C6_counterexample :
    (1000 : ℝ) < 1000 + 1 / 1000 ∧
    (calculateImpactMetrics (1000 + 1 / 1000) 20 3000 none).craterDiameterKm =
      (calculateImpactMetrics 1000 20 3000 none).craterDiameterKm := by
  constructor
  · norm_num
  · show round2 (craterKmRaw (1000 + 1 / 1000) 3000) = round2 (craterKmRaw 1000 3000)
    rw [craterKmRaw_scale_example, round2_of_one_point_eight]
    have h1 : (1 : ℝ) ≤ (1 + 1 / 1000000 : ℝ) ^ (0.78 : ℝ) := by
      calc (1 : ℝ) = (1 : ℝ) ^ (0.78 : ℝ) := (Real.one_rpow _).symm
        _ ≤ _ := Real.rpow_le_rpow (by norm_num) (by norm_num) (by norm_num)
    have h2 : ((1 + 1 / 1000000 : ℝ)) ^ (0.78 : ℝ) < 1 + 1 / 1000000 := by
      calc ((1 + 1 / 1000000 : ℝ)) ^ (0.78 : ℝ) < (1 + 1 / 1000000 : ℝ) ^ (1 : ℝ) :=
            Real.rpow_lt_rpow_of_exponent_lt (by norm_num) (by norm_num)
        _ = 1 + 1 / 1000000 := Real.rpow_one _
    have hcr : craterKmRaw (1000 + 1 / 1000) 3000 = 1.8 * ((1 + 1 / 1000000 : ℝ)) ^ (0.78 : ℝ) := by
      unfold craterKmRaw
      rw [show ((1000 + 1 / 1000 : ℝ)) / 1000 = 1 + 1 / 1000000 by norm_num]
      norm_num [Real.one_rpow]
    rw [hcr, round2_eq_int _ 180 (by nlinarith) (by nlinarith)]
    norm_num


/-- Closed form of the deflection distance at diameter 200 m, density 3000,
default interceptor parameters, as a rational constant times lead time over π. -/
theorem dartDeflectionKm_200_mul_pi (lt : ℝ) :
    dartDeflectionKm 200 3000 lt 570 6.6 3.6 * Real.pi = 106.84772208 * lt := by
  have hπ : Real.pi ≠ 0 := Real.pi_ne_zero
  unfold dartDeflectionKm dartVelocityChangeMS asteroidMassKg
  field_simp
  ring

/-- Closed form of the previous lemma as a quotient. -/
theorem dartDeflectionKm_200 (lt : ℝ) :
    dartDeflectionKm 200 3000 lt 570 6.6 3.6 = 106.84772208 * lt / Real.pi :=
  (eq_div_iff Real.pi_ne_zero).mpr (dartDeflectionKm_200_mul_pi lt)

/-- C1 counterexample: at diameter 200 m, velocity 20 km/s, density 3000,
lead time 5 years and default interceptor parameters, the marginal-success
branch reports success with confidence 70 although the miss distance
(about 170 km) is far below the 16371 km safety threshold. -/
theorem C1_counterexample :
    (calculateDartDeflection 20 200 3000 5 570 6.6 3.6).success = true ∧
    (calculateDartDeflection 20 200 3000 5 570 6.6 3.6).confidence = 70 ∧
    (calculateDartDeflection 20 200 3000 5 570 6.6 3.6).missDistanceKm ≤ minimumMissKm := by
  have hmiss : dartDeflectionKm 200 3000 5 570 6.6 3.6 ≤ minimumMissKm := by
    rw [dartDeflectionKm_200]
    unfold minimumMissKm
    rw [div_le_iff Real.pi_pos]
    nlinarith [Real.pi_gt_three]
  have hnot : ¬ (dartDeflectionKm 200 3000 5 570 6.6 3.6 > minimumMissKm) := not_lt.mpr hmiss
  refine ⟨?_, ?_, ?_⟩
  · simp only [calculateDartDeflection]
    rw [if_neg (by norm_num : ¬((200 : ℝ) > 1000)), if_neg (by norm_num : ¬((200 : ℝ) > 500)),
      if_pos (by norm_num : (200 : ℝ) > 100), if_neg hnot,
      if_neg (by norm_num : ¬((5 : ℝ) < 2))]
  · simp only [calculateDartDeflection]
    rw [if_neg (by norm_num : ¬((200 : ℝ) > 1000)), if_neg (by norm_num : ¬((200 : ℝ) > 500)),
      if_pos (by norm_num : (200 : ℝ) > 100), if_neg hnot,
      if_neg (by norm_num : ¬((5 : ℝ) < 2))]
  · rw [dart_missDistance]
    exact hmiss

/-- C1 (amended): success implies the miss distance clears the safety
threshold except in the two marginal tiers: whenever the outcome is a
success whose confidence is neither 70 (the 100 to 500 m marginal-success
branch) nor 80 (the small-asteroid fallback branch), the miss distance
exceeds `minimumMissKm`. -/
theorem C1_success_margin (v d ρ lt m dv β : ℝ)
    (h : (calculateDartDeflection v d ρ lt m dv β).success = true ∧
      (calculateDartDeflection v d ρ lt m dv β).confidence ≠ 70 ∧
      (calculateDartDeflection v d ρ lt m dv β).confidence ≠ 80) :
    (calculateDartDeflection v d ρ lt m dv β).missDistanceKm > minimumMissKm := by
  obtain ⟨hs, h70, h80⟩ := h
  rw [dart_missDistance]
  simp only [calculateDartDeflection] at hs h70 h80
  split_ifs at hs h70 h80 with h1 h2 h3 h4 h5 h6 h7
  · exact h3.2
  · exact h5
  · exact absurd rfl h70
  · unfold minimumMissKm at h7 ⊢
    linarith
  · exact absurd rfl h80

/-- C1 witness: diameter 200 m, lead time 1000 years clears the margin and
lands in the confidence-85 branch. -/
theorem C1_success_margin_witness :
    (calculateDartDeflection 20 200 3000 1000 570 6.6 3.6).success = true ∧
    (calculateDartDeflection 20 200 3000 1000 570 6.6 3.6).confidence ≠ 70 ∧
    (calculateDartDeflection 20 200 3000 1000 570 6.6 3.6).confidence ≠ 80 ∧
    (calculateDartDeflection 20 200 3000 1000 570 6.6 3.6).missDistanceKm > minimumMissKm := by
  have hmiss : dartDeflectionKm 200 3000 1000 570 6.6 3.6 > minimumMissKm := by
    rw [dartDeflectionKm_200]
    unfold minimumMissKm
    rw [gt_iff_lt, lt_div_iff Real.pi_pos]
    nlinarith [Real.pi_lt_d2]
  have hs : (calculateDartDeflection 20 200 3000 1000 570 6.6 3.6).success = true := by
    simp only [calculateDartDeflection]
    rw [if_neg (by norm_num : ¬((200 : ℝ) > 1000)), if_neg (by norm_num : ¬((200 : ℝ) > 500)),
      if_pos (by norm_num : (200 : ℝ) > 100), if_pos hmiss]
  have hc : (calculateDartDeflection 20 200 3000 1000 570 6.6 3.6).confidence = 85 := by
    simp only [calculateDartDeflection]
    rw [if_neg (by norm_num : ¬((200 : ℝ) > 1000)), if_neg (by norm_num : ¬((200 : ℝ) > 500)),
      if_pos (by norm_num : (200 : ℝ) > 100), if_pos hmiss]
  refine ⟨hs, by rw [hc]; decide, by rw [hc]; decide, ?_⟩
  exact C1_success_margin 20 200 3000 1000 570 6.6 3.6
    ⟨hs, by rw [hc]; decide, by rw [hc]; decide⟩

/-- C2 (code bug): the round trip at latitude 0, longitude 0, radius 2.
The forward map lands at the Cartesian point (2, 0, 0) and the reverse map
returns longitude 90, not 0: `vector3ToLatLon` never undoes the 270 degrees
texture offset applied by `latLonToVector3`, although its doc comment calls
it the inverse. -/
theorem C2_roundtrip_failure :
    latLonToVector3 0 0 2 = (2, 0, 0) ∧
    vector3ToLatLon 2 0 0 2 = (0, 90) := by
  constructor
  · simp only [latLonToVector3]
    rw [show ((90 : ℝ) - 0) * (Real.pi / 180) = Real.pi / 2 by ring,
      show ((0 : ℝ) - 270) * (Real.pi / 180) = Real.pi / 2 - 2 * Real.pi by ring,
      Real.sin_sub_two_pi, Real.cos_sub_two_pi, Real.sin_pi_div_two, Real.cos_pi_div_two]
    norm_num
  · unfold vector3ToLatLon atan2
    have harg : Complex.arg ⟨0, 2⟩ = Real.pi / 2 := by
      have h2I : (⟨0, 2⟩ : ℂ) = (2 : ℝ) * Complex.I := by
        simp [Complex.ext_iff]
      rw [h2I, Complex.arg_real_mul Complex.I (by norm_num : (0 : ℝ) < 2), Complex.arg_I]
    rw [harg, Prod.mk.injEq]
    constructor
    · rw [show ((0 : ℝ) / 2) = 0 by norm_num, min_eq_right zero_le_one,
        max_eq_right (by norm_num : (-1 : ℝ) ≤ 0), Real.arcsin_zero, zero_mul]
    · have hπ : Real.pi ≠ 0 := Real.pi_ne_zero
      field_simp
      ring

/-- C7 (amended): `latLonToVector3` is total and its value is invariant
under shifting the longitude by any whole number of turns; latitude is not
clamped (see the counterexample). -/
theorem C7_lon_periodic (lat lon radius : ℝ) (k : ℤ) :
    latLonToVector3 lat (lon + 360 * (k : ℝ)) radius = latLonToVector3 lat lon radius := by
  simp only [latLonToVector3]
  rw [show (lon + 360 * (k : ℝ) - 270) * (Real.pi / 180) =
      (lon - 270) * (Real.pi / 180) + (k : ℝ) * (2 * Real.pi) by ring,
    Real.sin_add_int_mul_two_pi, Real.cos_add_int_mul_two_pi]

/-- C7 counterexample: latitude is not clamped to the range from -90 to 90:
latitude 100 produces a different point than the clamped latitude 90. -/
theorem C7_no_latitude_clamp :
    latLonToVector3 100 0 2 ≠ latLonToVector3 (max (-90) (min 90 100)) 0 2 := by
  rw [show (max (-90 : ℝ) (min 90 100)) = 90 by norm_num]
  intro h
  have hx := congrArg (fun t : ℝ × ℝ × ℝ => t.1) h
  simp only [latLonToVector3] at hx
  rw [show ((90 : ℝ) - 90) * (Real.pi / 180) = 0 by ring, Real.sin_zero,
    show ((90 : ℝ) - 100) * (Real.pi / 180) = -(Real.pi / 18) by ring,
    show ((0 : ℝ) - 270) * (Real.pi / 180) = Real.pi / 2 - 2 * Real.pi by ring,
    Real.sin_sub_two_pi, Real.sin_pi_div_two, Real.sin_neg] at hx
  have hpos : 0 < Real.sin (Real.pi / 18) :=
    Real.sin_pos_of_pos_of_lt_pi (by positivity) (by linarith [Real.pi_pos])
  nlinarith [hx, hpos]


/-- Inserting an element bounded above by every list element puts it in front. -/
theorem orderedInsert_eq_cons {α : Type} (x : α × ℚ) (s : List (α × ℚ))
    (h : ∀ z ∈ s, scoreLE x z) : s.orderedInsert scoreLE x = x :: s := by
  cases s with
  | nil => rfl
  | cons z t =>
    simp only [List.orderedInsert]
    rw [if_pos (h z (List.mem_cons_self z t))]

/-- Filtering commutes with ordered insertion into a sorted list. -/
theorem filter_orderedInsert {α : Type} (p : α × ℚ → Bool) (x : α × ℚ) :
    ∀ s : List (α × ℚ), s.Sorted scoreLE →
      (s.orderedInsert scoreLE x).filter p =
        if p x then (s.filter p).orderedInsert scoreLE x else s.filter p := by
  intro s
  induction s with
  | nil =>
    intro _
    by_cases hp : p x = true <;> simp [List.orderedInsert, hp]
  | cons z t ih =>
    intro hs
    have hz := List.rel_of_sorted_cons hs
    have ht : t.Sorted scoreLE := hs.of_cons
    simp only [List.orderedInsert]
    by_cases hxz : scoreLE x z
    · rw [if_pos hxz]
      by_cases hp : p x = true
      · by_cases hpz : p z = true
        · simp [List.filter_cons, hp, hpz, List.orderedInsert, hxz]
        · have hall : ∀ w ∈ t.filter p, scoreLE x w := fun w hw =>
            le_trans hxz (hz w (List.mem_of_mem_filter hw))
          simp only [List.filter_cons, hp, hpz, if_pos, if_true, Bool.false_eq_true, if_false]
          rw [orderedInsert_eq_cons x _ hall]
      · by_cases hpz : p z = true <;>
          simp [List.filter_cons, hp, hpz, List.orderedInsert, hxz]
    · rw [if_neg hxz]
      by_cases hpz : p z = true
      · by_cases hp : p x = true <;>
          simp [List.filter_cons, hp, hpz, ih ht, List.orderedInsert, hxz]
      · by_cases hp : p x = true <;>
          simp [List.filter_cons, hp, hpz, ih ht, List.orderedInsert, hxz]

/-- Filtering commutes with insertion sort: insertion sort by score is
stable, so sorting then filtering equals filtering then sorting. -/
theorem filter_insertionSort {α : Type} (p : α × ℚ → Bool) (l : List (α × ℚ)) :
    (List.insertionSort scoreLE l).filter p = List.insertionSort scoreLE (l.filter p) := by
  induction l with
  | nil => rfl
  | cons x t ih =>
    simp only [List.insertionSort]
    rw [filter_orderedInsert p x _ (List.sorted_insertionSort scoreLE t)]
    by_cases hp : p x = true
    · simp only [List.filter_cons, hp, if_true, if_pos hp, ih, List.insertionSort]
    · simp only [List.filter_cons, hp, Bool.false_eq_true, if_false, ih]

/-- C8 (confirmed): the earthquake matcher is equivalent to first
restricting the catalog to impactful records (casualties above 100 or
magnitude at least 7.5) and scoring, sorting and applying the variety rule
within that subset only, falling back to the best-scoring head of the
unfiltered sorted list when no record qualifies. -/
theorem C8_prefilter_equivalence (targetMagnitude targetEnergy : ℚ)
    (catalog : List EarthquakeRecord) :
    closestEarthquake targetMagnitude targetEnergy catalog =
      closestEarthquakeSpec targetMagnitude targetEnergy catalog := by
  simp only [closestEarthquake, closestEarthquakeSpec]
  by_cases h : targetMagnitude = 0
  · rw [if_pos h, if_pos h]
  · rw [if_neg h, if_neg h]
    have key : (List.insertionSort scoreLE
        (catalog.map fun q => (q, earthquakeScore targetMagnitude targetEnergy q))).filter
          (fun p => qualifiesB p.1) =
        List.insertionSort scoreLE
          ((catalog.filter qualifiesB).map
            fun q => (q, earthquakeScore targetMagnitude targetEnergy q)) := by
      rw [filter_insertionSort]
      congr 1
      rw [List.filter_map]
      rfl
    rw [key]

end ClaimTheorems

end Endurance
